import Mathlib

/-!
Verification of the build-process orchestration module (`rez/build_process_.py`)
against its natural-language specification.

The Python module is shallowly embedded below.  External collaborators that the
module imports (package loading, the resolver, plugin lookup) are modelled as
parameters or as data types built from the specification's description of their
contracts; every function of the module itself is translated from the source.
Side effects (console output, resolver invocation, snapshot saving, package
loading) are made explicit as effect traces returned alongside the result, and
a raised exception is an `Except.error` value.
-/

/-! ## Models of Python primitives -/

/-- Model of `os.path.join(a, b)` (POSIX): if `b` is absolute it wins; if `a`
is empty or ends with a separator, concatenate; otherwise insert a `/`.
`startswith`/`endswith` are expressed on the character list of the string. -/
def pyJoin (a b : String) : String :=
  if b.data.head? = some '/' then b
  else if a.data = [] ∨ a.data.getLast? = some '/' then a ++ b
  else a ++ "/" ++ b

/-- Sliding substring test on character lists, modelling Python's `in` test on
strings (`needle in haystack`). -/
def isSubstring : List Char → List Char → Bool
  | needle, [] => needle.isEmpty
  | needle, c :: rest => needle.isPrefixOf (c :: rest) || isSubstring needle rest

/-- Model of the Python expression `a in b` for strings: substring containment. -/
def pyStrIn (a b : String) : Bool :=
  isSubstring a.data b.data

/-- Model of the Python expression `x or 0` for an optional integer `x`
(`None` and `0` are falsy, so both yield `0`). -/
def pyOrZero : Option Nat → Nat
  | none => 0
  | some n => if n = 0 then 0 else n

/-- Model of the Python expression `x or []` for an optional list `x`
(`None` and the empty list are falsy, so both yield `[]`). -/
def pyOrNil : Option (List String) → List String
  | none => []
  | some l => l

/-! ## Data model of the external collaborators

These types are collaborators of the module (its imports), not code of the
module itself; they are modelled from the specification's data-model and
external-interface sections. -/

/-- Modelled from the spec: the resolver's context status, one of
solved / failed / further non-solved states. -/
inductive ResolverStatus where
  | solved
  | failed
  | pending
deriving Repr, DecidableEq

/-- Modelled from the spec: the slice of per-package configuration the module
reads (search paths, build directory name, release-hook names). -/
structure PackageConfig where
  packages_path : List String
  nonlocal_packages_path : List String
  release_hooks : Option (List String)
  build_directory : String
deriving Repr, DecidableEq

/-- Modelled from the spec: one variant of a package — a 0-based stable index
(absent meaning "the only variant") and the full requirement list produced by
`get_requires(build_requires=True, private_build_requires=True)`. -/
structure Variant where
  index : Option Nat
  requires_full : List String
deriving Repr, DecidableEq

/-- Modelled from the spec: the immutable package descriptor — name, optional
version, ordered sequence of declared variants (each given by its requirement
list), package requirements, and configuration. -/
structure Package where
  name : String
  version : Option String
  requires_pkg : List String
  variant_requires : List (List String)
  config : PackageConfig
deriving Repr, DecidableEq

/-- Modelled from the spec: the number of declared variants of the package. -/
def Package.num_variants (p : Package) : Nat :=
  p.variant_requires.length

/-- Declared variants, enumerated with their 0-based indices starting at `i`. -/
def enumVariants : Nat → List (List String) → List Variant
  | _, [] => []
  | i, r :: rest => { index := some i, requires_full := r } :: enumVariants (i + 1) rest

/-- Modelled from the spec: iteration over the package's variants in
declaration order; a package with no declared variants yields a single
index-absent variant standing for the package itself. -/
def Package.iter_variants (p : Package) : List Variant :=
  match p.variant_requires with
  | [] => [{ index := none, requires_full := p.requires_pkg }]
  | _ => enumVariants 0 p.variant_requires

/-- Modelled from the spec: the VCS collaborator exposes its root `path`. -/
structure VCS where
  path : String
deriving Repr, DecidableEq

/-- Modelled from the spec: a resolved context records the request, the search
paths, the `building` flag it was created with, and the resolver's status. -/
structure ResolvedContext where
  request : List String
  package_paths : List String
  building : Bool
  status : ResolverStatus
deriving Repr, DecidableEq

/-! ## Errors and effect vocabularies -/

/-- Errors the module can raise.  `unboundName` models a Python `NameError`
raised when a `raise` statement refers to a name that is not bound in the
module (evaluating the callee of `raise BuildError(...)` fails before the
message argument is ever built). -/
inductive BPError where
  | buildProcessError (msg : String)
  | buildContextResolveError (context : ResolvedContext)
  | unboundName (name : String)
deriving Repr, DecidableEq

/-- External work performed by `BuildProcess.__init__`, in order. -/
inductive InitEffect where
  | debugPrinter (channel : String)
  | loadPackage (dir : String)
  | createHooks (names : List String) (dir : String)
deriving Repr, DecidableEq

/-- External work performed by `create_build_context`, in order. -/
inductive CtxEffect where
  | print (txt : String)
  | resolveCall (request : List String) (package_paths : List String) (building : Bool)
  | printInfo
  | save (filepath : String)
deriving Repr, DecidableEq

/-- Observable per-variant work performed by `visit_variants`, in order:
either the `_print_header("Skipping i/n...")` call for a skipped variant or
the invocation of the per-variant function. -/
inductive VisitEffect where
  | printHeader (txt : String)
  | funcCall (v : Variant)
deriving Repr, DecidableEq

/-! ## The module, shallowly embedded

Each definition below translates the function of the same name from
`rez/build_process_.py`. -/

/-- Enum `BuildType` from the source: `local = 0`, `central = 1`. -/
inductive BuildType where
  | «local»
  | central
deriving Repr, DecidableEq

/-- The construction performed by the factory when the membership check
passes: the looked-up plugin class applied to the forwarded arguments. -/
structure PluginConstruction where
  process_type : String
  working_dir : String
  build_system : String
  vcs : Option VCS
  ensure_latest : Bool
  verbose : Bool
deriving Repr, DecidableEq

/-- Translation of `create_build_process`.  `registered_types` models the
result of `get_build_process_types()`; the source binds it and then tests
`process_type not in process_type` — the name against itself, not against the
registered set — so the registered set is bound but never consulted, exactly
as in the source. -/
def create_build_process (registered_types : List String)
    (process_type working_dir build_system : String) (vcs : Option VCS)
    (ensure_latest verbose : Bool) : Except BPError PluginConstruction :=
  let _process_types := registered_types
  if !(pyStrIn process_type process_type) then
    Except.error (BPError.buildProcessError ("Unknown build process: " ++ process_type))
  else
    Except.ok { process_type := process_type, working_dir := working_dir,
                build_system := build_system, vcs := vcs,
                ensure_latest := ensure_latest, verbose := verbose }

/-- The guard `vcs and vcs.path != working_dir` from `BuildProcess.__init__`
(`None` is falsy). -/
def vcsMismatch (vcs : Option VCS) (working_dir : String) : Bool :=
  match vcs with
  | none => false
  | some v => v.path != working_dir

/-- The state a successfully constructed `BuildProcess` holds. -/
structure BuildProcessState where
  verbose : Bool
  working_dir : String
  build_system : String
  vcs : Option VCS
  ensure_latest : Bool
  package : Package
  hook_names : List String
  build_path : String
deriving Repr, DecidableEq

/-- Translation of `BuildProcess.__init__`.  The plain attribute assignments
at the top of the source involve no collaborator; the first external work is
the `config.debug_printer` lookup, then `get_developer_package` (modelled by
the `load_package` parameter), then `create_release_hooks`.  On the VCS
mismatch the error is raised before any of those effects occur. -/
def BuildProcess.init (load_package : String → Package)
    (working_dir build_system : String) (vcs : Option VCS)
    (ensure_latest verbose : Bool) :
    List InitEffect × Except BPError BuildProcessState :=
  if vcsMismatch vcs working_dir then
    ([], Except.error (BPError.buildProcessError
      "Build process was instantiated with a mismatched VCS instance"))
  else
    let package := load_package working_dir
    let hook_names := pyOrNil package.config.release_hooks
    let build_path := pyJoin working_dir package.config.build_directory
    ([InitEffect.debugPrinter "package_release",
      InitEffect.loadPackage working_dir,
      InitEffect.createHooks hook_names working_dir],
     Except.ok { verbose := verbose, working_dir := working_dir,
                 build_system := build_system, vcs := vcs,
                 ensure_latest := ensure_latest, package := package,
                 hook_names := hook_names, build_path := build_path })

/-- Translation of `_n_of_m`: `"%d/%d" % ((variant.index or 0) + 1,
max(package.num_variants, 1))`. -/
def n_of_m (p : Package) (variant : Variant) : String :=
  let num_variants := max p.num_variants 1
  let index := pyOrZero variant.index + 1
  toString index ++ "/" ++ toString num_variants

/-- The Python test `variant.index in variants` (an absent index equals no
integer, so it is a member of no list of integers). -/
def pyIndexMem : Option Nat → List Int → Bool
  | none, _ => false
  | some i, l => l.any (fun x => x == (i : Int))

/-- The loop guard `variants and variant.index not in variants` of
`visit_variants`. -/
def skipCond (variants : List Int) (v : Variant) : Bool :=
  !variants.isEmpty && !(pyIndexMem v.index variants)

/-- The `for variant in self.package.iter_variants()` loop of
`visit_variants`: a skipped variant contributes a `Skipping i/n...` header
call, a visited one contributes the function invocation, its result, and an
increment of `num_visited`. -/
def visitLoop (p : Package) (func : Variant → α) (variants : List Int) :
    List Variant → List VisitEffect × Nat × List α
  | [] => ([], 0, [])
  | v :: rest =>
    let r := visitLoop p func variants rest
    if skipCond variants v then
      (VisitEffect.printHeader ("Skipping " ++ n_of_m p v ++ "...") :: r.1,
       r.2.1, r.2.2)
    else
      (VisitEffect.funcCall v :: r.1, r.2.1 + 1, func v :: r.2.2)

/-- Translation of `visit_variants`.  A `variants` argument of `None` and of
`[]` are both falsy in Python and are both modelled by `[]`.  When the
requested list is non-empty, `set(variants) - set(range(num_variants))` is
computed; if it is non-empty the source executes `raise BuildError(...)` —
but `BuildError` is never imported in `build_process_.py`, so evaluating the
callee raises `NameError` before the sorted, deduplicated index message is
ever constructed.  That behaviour is modelled by `BPError.unboundName
"BuildError"`. -/
def visit_variants (p : Package) (func : Variant → α) (variants : List Int) :
    List VisitEffect × Except BPError (Nat × List α) :=
  if !variants.isEmpty &&
      !((variants.filter
          (fun x => !((List.range p.num_variants).any (fun y => (y : Int) == x)))).isEmpty) then
    ([], Except.error (BPError.unboundName "BuildError"))
  else
    let r := visitLoop p func variants p.iter_variants
    (r.1, Except.ok (r.2.1, r.2.2))

/-- Translation of `get_package_install_path`: join the package name, then,
if the package is versioned (`None` and rez's empty version are falsy, both
modelled by an absent version), the version string. -/
def get_package_install_path (p : Package) (path : String) : String :=
  let path1 := pyJoin path p.name
  match p.version with
  | some v => pyJoin path1 v
  | none => path1

/-- Translation of `create_build_context`.  The external resolver is the
`solver` parameter; constructing `ResolvedContext(request,
package_paths=packages_path, building=True)` is recorded as a `resolveCall`
effect and yields a context whose status the solver determines.  The `_print`
line and `context.print_info()` are verbose-gated; `context.save` is
unconditional and precedes the status check, exactly as in the source. -/
def create_build_context (verbose : Bool) (p : Package)
    (solver : List String → List String → ResolverStatus)
    (variant : Variant) (build_type : BuildType) (build_path : String) :
    List CtxEffect × Except BPError (ResolvedContext × String) :=
  let request := variant.requires_full
  let requests_str := " ".intercalate request
  let effs0 : List CtxEffect :=
    if verbose then [CtxEffect.print ("Resolving build environment: " ++ requests_str)]
    else []
  let packages_path :=
    if build_type = BuildType.«local» then p.config.packages_path
    else p.config.nonlocal_packages_path
  let context : ResolvedContext :=
    { request := request, package_paths := packages_path, building := true,
      status := solver request packages_path }
  let effs1 := effs0 ++ [CtxEffect.resolveCall request packages_path true]
  let effs2 := effs1 ++ (if verbose then [CtxEffect.printInfo] else [])
  let rxt_filepath := pyJoin build_path "build.rxt"
  let effs3 := effs2 ++ [CtxEffect.save rxt_filepath]
  if context.status ≠ ResolverStatus.solved then
    (effs3, Except.error (BPError.buildContextResolveError context))
  else
    (effs3, Except.ok (context, rxt_filepath))

/-- The package search paths handed to the resolver, read off an effect
trace: the paths of the first `resolveCall`, if any. -/
def resolvePathsOf : List CtxEffect → Option (List String)
  | [] => none
  | CtxEffect.resolveCall _ paths _ :: _ => some paths
  | _ :: rest => resolvePathsOf rest

/-- The variant a `visit_variants` effect invoked the per-variant function
on, if it is such an invocation. -/
def calledVariant : VisitEffect → Option Variant
  | VisitEffect.funcCall v => some v
  | _ => none

/-- The context `create_build_context` obtains from the resolver, as a
function of its inputs (mirrors the internal `let` bindings of
`create_build_context`). -/
def contextOf (p : Package) (solver : List String → List String → ResolverStatus)
    (variant : Variant) (build_type : BuildType) : ResolvedContext :=
  let packages_path :=
    if build_type = BuildType.«local» then p.config.packages_path
    else p.config.nonlocal_packages_path
  { request := variant.requires_full, package_paths := packages_path,
    building := true, status := solver variant.requires_full packages_path }

/-! ## Concrete sample data used by witnesses -/

/-- A sample package configuration. -/
def cfg0 : PackageConfig :=
  { packages_path := ["/pkgs/local", "/pkgs/remote"],
    nonlocal_packages_path := ["/pkgs/remote"],
    release_hooks := none,
    build_directory := "build" }

/-- A sample package with three declared variants. -/
def pkg3 : Package :=
  { name := "foo", version := some "1.2.3", requires_pkg := ["base"],
    variant_requires := [["a"], ["b"], ["c"]], config := cfg0 }

/-- A sample package with no declared variants and no version. -/
def pkg0 : Package :=
  { name := "bar", version := none, requires_pkg := [],
    variant_requires := [], config := cfg0 }

/-- The versioned package of the spec's install-path example, `P@1.2.3`. -/
def pkgP : Package :=
  { name := "P", version := some "1.2.3", requires_pkg := [],
    variant_requires := [], config := cfg0 }

/-- The first variant of `pkg3`. -/
def var0 : Variant := { index := some 0, requires_full := ["a"] }

/-- An index-absent variant (sole variant of a variant-less package). -/
def varNone : Variant := { index := none, requires_full := [] }

/-! ## Helper lemmas -/

theorem isPrefixOf_self {α : Type _} [BEq α] [LawfulBEq α] (l : List α) :
    l.isPrefixOf l = true := by
  induction l with
  | nil => rfl
  | cons a t ih => simp [List.isPrefixOf, ih]

/-- Every string contains itself as a substring, so Python's
`s not in s` is false for every string `s`. -/
theorem pyStrIn_self (s : String) : pyStrIn s s = true := by
  unfold pyStrIn
  cases h : s.data with
  | nil => rfl
  | cons c t => simp [isSubstring, isPrefixOf_self]

theorem skipCond_nil (v : Variant) : skipCond [] v = false := rfl

theorem skipCond_of_ne_nil {variants : List Int} (h : variants ≠ []) (v : Variant) :
    skipCond variants v = !(pyIndexMem v.index variants) := by
  unfold skipCond
  have : variants.isEmpty = false := by
    cases variants with
    | nil => exact absurd rfl h
    | cons a l => rfl
  rw [this]
  simp

/-- Closed form of the `visit_variants` iteration: one effect per variant,
one result and one count increment per non-skipped variant, in order. -/
theorem visitLoop_eq {α : Type _} (p : Package) (func : Variant → α)
    (variants : List Int) (vs : List Variant) :
    visitLoop p func variants vs =
      (vs.map (fun v => if skipCond variants v then
          VisitEffect.printHeader ("Skipping " ++ n_of_m p v ++ "...")
        else VisitEffect.funcCall v),
       (vs.filter (fun v => !skipCond variants v)).length,
       (vs.filter (fun v => !skipCond variants v)).map func) := by
  induction vs with
  | nil => rfl
  | cons v rest ih =>
    simp only [visitLoop, ih]
    cases h : skipCond variants v <;> simp [h, List.filter_cons]

theorem enumVariants_index_mem :
    ∀ (l : List (List String)) (i : Nat) (v : Variant),
      v ∈ enumVariants i l → ∃ j, v.index = some j ∧ i ≤ j := by
  intro l
  induction l with
  | nil => intro i v h; simp [enumVariants] at h
  | cons r rest ih =>
    intro i v h
    simp only [enumVariants, List.mem_cons] at h
    rcases h with rfl | h
    · exact ⟨i, rfl, le_refl i⟩
    · obtain ⟨j, hj, hij⟩ := ih (i + 1) v h
      exact ⟨j, hj, by omega⟩

theorem enumVariants_nodup :
    ∀ (l : List (List String)) (i : Nat), (enumVariants i l).Nodup := by
  intro l
  induction l with
  | nil => intro i; simp [enumVariants]
  | cons r rest ih =>
    intro i
    simp only [enumVariants]
    refine List.nodup_cons.mpr ⟨?_, ih (i + 1)⟩
    intro hmem
    obtain ⟨j, hj, hij⟩ := enumVariants_index_mem rest (i + 1) _ hmem
    simp only [Option.some.injEq] at hj
    omega

/-- The variant sequence a package yields is duplicate-free. -/
theorem iter_variants_nodup (p : Package) : p.iter_variants.Nodup := by
  unfold Package.iter_variants
  split
  · exact List.nodup_singleton _
  · exact enumVariants_nodup _ _

/-- Reading the invoked variants off a `visit_variants` effect trace yields
exactly the non-skipped variants, in order. -/
theorem filterMap_calledVariant (p : Package) (variants : List Int)
    (vs : List Variant) :
    (vs.map (fun v => if skipCond variants v then
        VisitEffect.printHeader ("Skipping " ++ n_of_m p v ++ "...")
      else VisitEffect.funcCall v)).filterMap calledVariant
      = vs.filter (fun v => !skipCond variants v) := by
  induction vs with
  | nil => rfl
  | cons v rest ih =>
    cases h : skipCond variants v <;>
      simp [calledVariant, h, ih, List.filter_cons]

theorem resolvePathsOf_print (t : String) (l : List CtxEffect) :
    resolvePathsOf (CtxEffect.print t :: l) = resolvePathsOf l := rfl

theorem resolvePathsOf_resolveCall (r ps : List String) (b : Bool)
    (l : List CtxEffect) :
    resolvePathsOf (CtxEffect.resolveCall r ps b :: l) = some ps := rfl

/-! ## Claim theorems -/

/-- C2: for a requested index set containing an index the package does not
have, `visit_variants` aborts before processing any variant (the effect
trace is empty, so the per-variant function is never invoked) — but the
failure is a `NameError` on the unbound name `BuildError`, not a
variant-not-found error listing the sorted, deduplicated invalid indices:
`BuildError` is never imported by the module, so the intended message is
never constructed. -/
theorem visit_variants_invalid_index_namerror :
    visit_variants pkg3 (fun v => v) [5] =
      ([], Except.error (BPError.unboundName "BuildError")) := by
  rfl

/-- C3: `create_build_process` never raises at its membership check — for
every registered-type set and every process-type name, including names not
in the registered set, it proceeds to construction and returns it.  The
source tests `process_type not in process_type` (the name against itself,
a substring test that always succeeds), so the documented
unknown-process-type failure is unreachable. -/
theorem create_build_process_never_fails (registered_types : List String)
    (process_type working_dir build_system : String) (vcs : Option VCS)
    (ensure_latest verbose : Bool) :
    create_build_process registered_types process_type working_dir build_system
        vcs ensure_latest verbose
      = Except.ok { process_type := process_type, working_dir := working_dir,
                    build_system := build_system, vcs := vcs,
                    ensure_latest := ensure_latest, verbose := verbose } := by
  unfold create_build_process
  simp [pyStrIn_self]

/-- C4: constructing a `BuildProcess` with a VCS whose root path differs
from the working directory fails with the configuration-mismatch error,
whatever the other arguments are, and with an empty effect trace: the
package is never loaded, no hooks are created, and no state (hence no build
path) is produced. -/
theorem build_process_init_vcs_mismatch (load_package : String → Package)
    (working_dir build_system : String) (v : VCS) (ensure_latest verbose : Bool)
    (h : v.path ≠ working_dir) :
    BuildProcess.init load_package working_dir build_system (some v)
        ensure_latest verbose
      = ([], Except.error (BPError.buildProcessError
          "Build process was instantiated with a mismatched VCS instance")) := by
  unfold BuildProcess.init vcsMismatch
  simp [h]

/-- Witness for C4 at a concrete mismatched VCS. -/
theorem build_process_init_vcs_mismatch_witness :
    BuildProcess.init (fun _ => pkg3) "/work" "cmake" (some { path := "/elsewhere" })
        true false
      = ([], Except.error (BPError.buildProcessError
          "Build process was instantiated with a mismatched VCS instance")) :=
  build_process_init_vcs_mismatch (fun _ => pkg3) "/work" "cmake"
    { path := "/elsewhere" } true false (by decide)

/-- C8: with an empty (or `None`) requested-index list, `visit_variants`
invokes the per-variant function on every variant the package yields, in
declaration order, with no validation failure and no skip report; the count
is the number of variants. -/
theorem visit_variants_all {α : Type _} (p : Package) (func : Variant → α) :
    visit_variants p func [] =
      (p.iter_variants.map VisitEffect.funcCall,
       Except.ok (p.iter_variants.length, p.iter_variants.map func)) := by
  unfold visit_variants
  simp only [List.isEmpty_nil, Bool.not_true, Bool.false_and, Bool.false_eq_true,
    if_false, visitLoop_eq]
  simp [skipCond_nil, List.filter_true]

/-- C9: the `_n_of_m` progress string always has the form `i/n` with
`n = max(num_variants, 1)`; for a package with at most one variant and a
variant whose index is absent or `0`, it is `1/1`. -/
theorem n_of_m_spec (p : Package) (v : Variant) :
    (∃ i : Nat, n_of_m p v = toString i ++ "/" ++ toString (max p.num_variants 1))
    ∧ (p.num_variants ≤ 1 → (v.index = none ∨ v.index = some 0) →
        n_of_m p v = "1/1") := by
  constructor
  · exact ⟨pyOrZero v.index + 1, rfl⟩
  · intro hn hidx
    have hmax : max p.num_variants 1 = 1 := by
      rcases Nat.le_one_iff_eq_zero_or_eq_one.mp hn with h | h <;> rw [h] <;> decide
    have hz : pyOrZero v.index = 0 := by
      rcases hidx with h | h <;> simp [pyOrZero, h]
    unfold n_of_m
    rw [hmax, hz]
    rfl

/-- Witness for C9: a variant-less package reports position `1/1`. -/
theorem n_of_m_spec_witness : n_of_m pkg0 varNone = "1/1" :=
  (n_of_m_spec pkg0 varNone).2 (by decide) (Or.inl rfl)

/-- C5: when the requested index list is non-empty and every requested index
exists in the package, `visit_variants` invokes the per-variant function
exactly on the variants whose index is requested, in declaration order,
reports every non-selected variant with a `Skipping i/n...` header (not a
failure), and returns a count equal to the number of selected variants. -/
theorem visit_variants_selected {α : Type _} (p : Package) (func : Variant → α)
    (variants : List Int) (hne : variants ≠ [])
    (hvalid : ∀ x ∈ variants, ∃ i : Nat, i < p.num_variants ∧ (i : Int) = x) :
    visit_variants p func variants =
      (p.iter_variants.map (fun v =>
          if pyIndexMem v.index variants then VisitEffect.funcCall v
          else VisitEffect.printHeader ("Skipping " ++ n_of_m p v ++ "...")),
       Except.ok
         ((p.iter_variants.filter (fun v => pyIndexMem v.index variants)).length,
          (p.iter_variants.filter (fun v => pyIndexMem v.index variants)).map func)) := by
  have hvempty :
      (variants.filter (fun x =>
        !((List.range p.num_variants).any (fun y => (y : Int) == x)))).isEmpty = true := by
    rw [List.isEmpty_iff, List.filter_eq_nil_iff]
    intro x hx
    obtain ⟨i, hi, rfl⟩ := hvalid x hx
    simp [List.any_eq_true]
    exact hi
  unfold visit_variants
  simp only [hvempty, Bool.not_true, Bool.and_false, Bool.false_eq_true, if_false]
  rw [visitLoop_eq]
  refine congrArg₂ Prod.mk ?_ ?_
  · refine List.map_congr_left (fun v _ => ?_)
    rw [skipCond_of_ne_nil hne]
    cases h : pyIndexMem v.index variants <;> simp [h]
  · have hf : p.iter_variants.filter (fun v => !skipCond variants v)
        = p.iter_variants.filter (fun v => pyIndexMem v.index variants) := by
      refine List.filter_congr (fun v _ => ?_)
      rw [skipCond_of_ne_nil hne]
      simp
    rw [hf]

/-- Witness for C5: three variants, request for indices 0 and 2 — variants 0
and 2 are visited, variant 1 is reported skipped, the count is 2. -/
theorem visit_variants_selected_witness :
    visit_variants pkg3 (fun v => v.index) [0, 2] =
      ([VisitEffect.funcCall { index := some 0, requires_full := ["a"] },
        VisitEffect.printHeader "Skipping 2/3...",
        VisitEffect.funcCall { index := some 2, requires_full := ["c"] }],
       Except.ok (2, [some 0, some 2])) := by
  have h := visit_variants_selected pkg3 (fun v => v.index) [0, 2]
    (by decide)
    (by
      intro x hx
      simp only [List.mem_cons] at hx
      rcases hx with rfl | rfl | hx
      · exact ⟨0, by decide, rfl⟩
      · exact ⟨2, by decide, rfl⟩
      · exact absurd hx (List.not_mem_nil x))
  exact h.trans (by rfl)

/-- `visit_variants` either aborts at validation with the unbound-name
error and an empty trace, or runs the loop to completion. -/
theorem visit_variants_cases {α : Type _} (p : Package) (func : Variant → α)
    (variants : List Int) :
    visit_variants p func variants
        = ([], Except.error (BPError.unboundName "BuildError"))
    ∨ visit_variants p func variants =
        (p.iter_variants.map (fun v => if skipCond variants v then
            VisitEffect.printHeader ("Skipping " ++ n_of_m p v ++ "...")
          else VisitEffect.funcCall v),
         Except.ok
           ((p.iter_variants.filter (fun v => !skipCond variants v)).length,
            (p.iter_variants.filter (fun v => !skipCond variants v)).map func)) := by
  unfold visit_variants
  split
  · left; rfl
  · right; rw [visitLoop_eq]

/-- C10: in every invocation of `visit_variants` the per-variant function is
invoked at most once per variant (the invocation trace is duplicate-free),
and a returned visit count always equals the length of the returned results
list. -/
theorem visit_variants_once_and_count {α : Type _} (p : Package)
    (func : Variant → α) (variants : List Int) :
    ((visit_variants p func variants).1.filterMap calledVariant).Nodup
    ∧ ∀ n rs, (visit_variants p func variants).2 = Except.ok (n, rs) →
        n = rs.length := by
  rcases visit_variants_cases p func variants with h | h <;> rw [h]
  · constructor
    · simp
    · intro n rs hh
      simp at hh
  · constructor
    · rw [filterMap_calledVariant]
      exact (iter_variants_nodup p).filter _
    · intro n rs hh
      simp only [Except.ok.injEq, Prod.mk.injEq] at hh
      obtain ⟨h1, h2⟩ := hh
      subst h1
      subst h2
      rw [List.length_map]

/-- Witness for C10: a duplicated requested index (`[0, 0, 2]`) still visits
each variant at most once, and the count equals the results length. -/
theorem visit_variants_once_and_count_witness :
    ((visit_variants pkg3 (fun v => v.index) [0, 0, 2]).1.filterMap calledVariant).Nodup
    ∧ 2 = ([Option.some 0, Option.some 2] : List (Option Nat)).length :=
  ⟨(visit_variants_once_and_count pkg3 (fun v => v.index) [0, 0, 2]).1,
   (visit_variants_once_and_count pkg3 (fun v => v.index) [0, 0, 2]).2
     2 [Option.some 0, Option.some 2] (by rfl)⟩

/-- C7: the package search paths handed to the resolver by
`create_build_context` are a function of the build type alone: the
local-and-remote paths for a local build, the non-local paths for a central
build. -/
theorem create_build_context_paths_by_build_type (verbose : Bool) (p : Package)
    (solver : List String → List String → ResolverStatus) (variant : Variant)
    (build_type : BuildType) (build_path : String) :
    resolvePathsOf (create_build_context verbose p solver variant build_type build_path).1
      = some (match build_type with
              | BuildType.«local» => p.config.packages_path
              | BuildType.central => p.config.nonlocal_packages_path) := by
  cases build_type <;> cases verbose <;>
    simp [create_build_context, apply_ite, resolvePathsOf_print,
      resolvePathsOf_resolveCall]

/-- C1: `create_build_context` serializes the context to
`<build_path>/build.rxt` as its last action before the status check (so the
snapshot exists whenever the resolve-failure error is raised); it raises the
resolve-failure error carrying the unsolved context exactly when the status
is not solved, and on a solved status returns the context with the snapshot
path. -/
theorem create_build_context_snapshot_and_status (verbose : Bool) (p : Package)
    (solver : List String → List String → ResolverStatus) (variant : Variant)
    (build_type : BuildType) (build_path : String) :
    (create_build_context verbose p solver variant build_type build_path).1.getLast?
        = some (CtxEffect.save (pyJoin build_path "build.rxt"))
    ∧ ((create_build_context verbose p solver variant build_type build_path).2
        = Except.error (BPError.buildContextResolveError
            (contextOf p solver variant build_type))
        ↔ (contextOf p solver variant build_type).status ≠ ResolverStatus.solved)
    ∧ ((contextOf p solver variant build_type).status = ResolverStatus.solved →
        (create_build_context verbose p solver variant build_type build_path).2
          = Except.ok (contextOf p solver variant build_type,
              pyJoin build_path "build.rxt")) := by
  refine ⟨?_, ?_, ?_⟩
  · cases verbose <;> simp only [create_build_context] <;> split <;> split <;> rfl
  · simp only [create_build_context, contextOf]
    by_cases hs : solver variant.requires_full
        (if build_type = BuildType.«local» then p.config.packages_path
         else p.config.nonlocal_packages_path) = ResolverStatus.solved
    · simp [hs]
    · simp [hs]
  · intro hsolved
    simp only [contextOf] at hsolved
    simp [create_build_context, contextOf, hsolved]

/-- Witness for C1: with a solver that solves, the snapshot is the last
effect and the context is returned with the snapshot path. -/
theorem create_build_context_snapshot_and_status_witness :
    (create_build_context false pkg3 (fun _ _ => ResolverStatus.solved) var0
        BuildType.«local» "/work/build").2
      = Except.ok (contextOf pkg3 (fun _ _ => ResolverStatus.solved) var0 BuildType.«local»,
          pyJoin "/work/build" "build.rxt") :=
  (create_build_context_snapshot_and_status false pkg3
      (fun _ _ => ResolverStatus.solved) var0 BuildType.«local» "/work/build").2.2 rfl

/-- C6: for a root that is non-empty and separator-free at its end, and a
package whose name is a plain non-empty path segment,
`get_package_install_path` returns `root/name/version` for a versioned
package and `root/name` for an unversioned one; and it is deterministic —
equal inputs give equal outputs. -/
theorem get_package_install_path_spec (root : String) (p : Package)
    (hname_ne : p.name.data ≠ [])
    (hname_head : p.name.data.head? ≠ some '/')
    (hname_last : p.name.data.getLast? ≠ some '/')
    (hroot_ne : root.data ≠ [])
    (hroot_last : root.data.getLast? ≠ some '/')
    (hver : ∀ v, p.version = some v → v.data.head? ≠ some '/') :
    get_package_install_path p root =
      root ++ "/" ++ p.name ++
        (match p.version with | some v => "/" ++ v | none => "")
    ∧ (∀ root2 p2, root2 = root → p2 = p →
        get_package_install_path p2 root2 = get_package_install_path p root) := by
  have hj1 : pyJoin root p.name = root ++ "/" ++ p.name := by
    unfold pyJoin
    rw [if_neg hname_head, if_neg (not_or.mpr ⟨hroot_ne, hroot_last⟩)]
  constructor
  · cases hv : p.version with
    | none =>
      simp only [get_package_install_path, hv, hj1]
      rw [String.append_empty]
    | some v =>
      have hvh := hver v hv
      have hdata : (root ++ "/" ++ p.name).data = (root ++ "/").data ++ p.name.data :=
        String.data_append _ _
      have hne2 : (root ++ "/" ++ p.name).data ≠ [] := by
        rw [hdata]
        exact List.append_ne_nil_of_right_ne_nil _ hname_ne
      have hlast2 : (root ++ "/" ++ p.name).data.getLast? ≠ some '/' := by
        rw [hdata, List.getLast?_append,
          Option.or_of_isSome (List.getLast?_isSome.mpr hname_ne)]
        exact hname_last
      have hj2 : pyJoin (root ++ "/" ++ p.name) v = root ++ "/" ++ p.name ++ "/" ++ v := by
        unfold pyJoin
        rw [if_neg hvh, if_neg (not_or.mpr ⟨hne2, hlast2⟩)]
      simp only [get_package_install_path, hv, hj1, hj2]
      rw [String.append_assoc]
  · intro root2 p2 h1 h2
    rw [h1, h2]

/-- Witness for C6: the spec's example — package `P` at version `1.2.3`
under root `/r` installs to `/r/P/1.2.3`. -/
theorem get_package_install_path_spec_witness :
    get_package_install_path pkgP "/r" = "/r/P/1.2.3" := by
  have h := get_package_install_path_spec "/r" pkgP (by decide) (by decide)
    (by decide) (by decide) (by decide)
    (by
      intro v hv
      simp only [pkgP, Option.some.injEq] at hv
      subst hv
      decide)
  exact h.1.trans (by decide)
